import Mathlib

/-!
Verification development for the entity cache and live-state synchronization
layer of a chat-platform client library, centred on the `Message` structure
(`src/packages/guilded.js/lib/structures/Message.ts`) and its in-place
update operation `_update`, derived accessors (`authorId`, `url`, `author`,
`member`, `channel`, `server`) and the `edit` action.

Embedding conventions:
  * JavaScript objects become Lean structures; in-place mutation becomes
    explicit state passing (`_update` returns the updated `Message`, which
    models the source's `return this` on the mutated instance).
  * A key of an incoming JS payload can be absent, present with value
    `undefined`, or present with a value; this three-way distinction (the
    source tests `"k" in data` and `typeof data.k`) is the type `JsProp`.
  * `Date.parse` is an external JS builtin; every definition that calls it
    takes it as an explicit function argument `dp : String → Int`.
  * JS string truthiness (`!this.serverId`, `this.serverId ? _ : _`): both
    `null` and the empty string are falsy; captured by `strTruthy`.
-/

/-- Key of a JS object in a payload: absent, present with value `undefined`,
or present with a value of type `α`. -/
inductive JsProp (α : Type) where
  | absent : JsProp α
  | undef : JsProp α
  | val : α → JsProp α
deriving DecidableEq, Repr

/-- Placeholder for the external `MentionsPayload` shape (`@guildedjs/api`);
its internals are irrelevant to the cache layer, which stores it opaquely. -/
structure MentionsPayload where
  raw : String
deriving DecidableEq, Repr

/-- Placeholder for the raw embed payload shape (`@guildedjs/api`), stored
opaquely. -/
structure EmbedPayload where
  raw : String
deriving DecidableEq, Repr

/-- Modelled from the spec: the `Embed` class (`structures/Embed.ts`, not in
the excerpt) — on update, embeds are "wholesale-replace[d] with freshly
constructed embed objects from the raw array"; an `Embed` wraps one raw
embed payload. -/
structure Embed where
  payload : EmbedPayload
deriving DecidableEq, Repr

/-- `new Embed(x)` of the source, on the spec-modelled `Embed`. -/
def Embed.ofPayload (x : EmbedPayload) : Embed := ⟨x⟩

/-- `MessageType` enum of `Message.ts`. -/
inductive MessageType where
  | Default : MessageType
  | System : MessageType
deriving DecidableEq, Repr

/-- The `Message` structure of `Message.ts`. `id` is the identity field
inherited from `Base`. Nullable fields are `Option`; `mentions` is declared
`mentions?: MentionsPayload`, so `none` stands for `undefined`. Timestamps
(`_createdAt`, `_updatedAt`, `_deletedAt`) are the stored millisecond
numbers produced by `Date.parse`. -/
structure Message where
  id : String
  channelId : String
  serverId : Option String
  groupId : Option String
  type : MessageType
  content : String
  mentions : Option MentionsPayload
  replyMessageIds : List String
  isPrivate : Bool
  isSilent : Bool
  createdById : String
  isReply : Bool
  createdByWebhookId : Option String
  _createdAt : Int
  _updatedAt : Option Int
  deleted : Bool
  _deletedAt : Option Int
  embeds : List Embed
deriving DecidableEq, Repr

/-- The argument of `Message._update`, of type
`Partial<ChatMessagePayload> | { deletedAt: string }`: each recognized key
can be absent, present-`undefined`, or present with a value — except
`deletedAt`, whose carrying shape declares it a plain `string`, so it is
either absent or a string. Keys of the payload that `_update` never reads
are omitted: they cannot affect any field. -/
structure UpdatePayload where
  content : JsProp String
  mentions : JsProp MentionsPayload
  updatedAt : JsProp String
  deletedAt : Option String
  embeds : JsProp (List EmbedPayload)
deriving DecidableEq, Repr

/-- The payload with every recognized key absent. -/
def UpdatePayload.empty : UpdatePayload :=
  { content := JsProp.absent
    mentions := JsProp.absent
    updatedAt := JsProp.absent
    deletedAt := none
    embeds := JsProp.absent }

/-- `Message.prototype._update` (`Message.ts` lines 83–106), five independent
if-blocks executed in order; `dp` stands for the external `Date.parse`.
  * `content`: set only when the key is present and the value is not
    `undefined` (`"content" in data && typeof data.content !== "undefined"`).
  * `mentions`: assigned whenever the key is present, `undefined` included
    (`this.mentions = data.mentions`).
  * `updatedAt`: when present, `data.updatedAt ? Date.parse(data.updatedAt)
    : null` — `undefined` and `""` are falsy, any other string is truthy.
  * `deletedAt`: when present, `deleted` is set `true` and `_deletedAt` to
    the parsed value, unconditionally.
  * `embeds`: when present, `data.embeds?.map((x) => new Embed(x)) ?? []`.
The source ends with `return this`; here the function returns the updated
message, whose identity field is never touched. -/
def Message._update (dp : String → Int) (m : Message) (data : UpdatePayload) :
    Message :=
  let m1 := match data.content with
    | JsProp.val c => { m with content := c }
    | _ => m
  let m2 := match data.mentions with
    | JsProp.absent => m1
    | JsProp.undef => { m1 with mentions := none }
    | JsProp.val x => { m1 with mentions := some x }
  let m3 := match data.updatedAt with
    | JsProp.absent => m2
    | JsProp.undef => { m2 with _updatedAt := none }
    | JsProp.val s =>
        { m2 with _updatedAt := if s = "" then none else some (dp s) }
  let m4 := match data.deletedAt with
    | none => m3
    | some s => { m3 with deleted := true, _deletedAt := some (dp s) }
  let m5 := match data.embeds with
    | JsProp.absent => m4
    | JsProp.undef => { m4 with embeds := [] }
    | JsProp.val l => { m4 with embeds := l.map Embed.ofPayload }
  m5

/-- A sequence of update events applied in arrival order. -/
def Message.updateAll (dp : String → Int) (ps : List UpdatePayload)
    (m : Message) : Message :=
  ps.foldl (fun acc p => Message._update dp acc p) m

/-- JS truthiness of a `string | null` value: `null`, `undefined` and the
empty string are falsy (`!this.serverId`, `this.serverId ? _ : _`). -/
def strTruthy : Option String → Bool
  | none => false
  | some s => !(s = "")

/-- Sibling entity `User` (collaborator, referenced not defined in the
excerpt); only its identity matters to the cache layer. -/
structure User where
  id : String
deriving DecidableEq, Repr

/-- Sibling entity `Member` (collaborator); composite identity
`(serverId, userId)`. -/
structure Member where
  serverId : String
  userId : String
deriving DecidableEq, Repr

/-- Sibling entity `Channel` (collaborator). -/
structure Channel where
  id : String
deriving DecidableEq, Repr

/-- Sibling entity `Server` (collaborator). -/
structure Server where
  id : String
deriving DecidableEq, Repr

/-- Modelled from the spec: a per-type manager cache (`Manager` classes, not
in the excerpt) — "one mapping-from-key-to-entity per entity type", exposing
"`get(key: string) -> Entity | absent`" used read-only by relationship
accessors. -/
structure Cache (α : Type) where
  entries : List (String × α)
deriving DecidableEq, Repr

/-- The cache's `get(key)`: the entry stored under `key`, or `none`. -/
def Cache.get {α : Type} (c : Cache α) (k : String) : Option α :=
  (c.entries.find? (fun e => e.1 = k)).map (fun e => e.2)

/-- Modelled from the spec: `buildMemberKey` (`lib/util`, not in the
excerpt) — a "stable concatenation with a separator", deterministic in
`(serverId, userId)`. -/
def buildMemberKey (serverId userId : String) : String :=
  serverId ++ ":" ++ userId

/-- The client context: aggregates the per-type caches every entity holds a
back-reference to. The excluded transport is not part of the state. -/
structure Client where
  users : Cache User
  members : Cache Member
  channels : Cache Channel
  servers : Cache Server
deriving DecidableEq, Repr

/-- `get authorId()` (`Message.ts` lines 142–144):
`this.createdByWebhookId ?? this.createdById` — nullish coalescing, so the
webhook id wins whenever it is non-null. -/
def Message.authorId (m : Message) : String :=
  match m.createdByWebhookId with
  | some w => w
  | none => m.createdById

/-- `get url()` (`Message.ts` lines 127–130): `if (!this.serverId) return
"";` then the template
`https://www.guilded.gg/chat/CHANNELID?messageId=ID`. The guard is JS
truthiness, not a null test. -/
def Message.url (m : Message) : String :=
  if strTruthy m.serverId then
    "https://www.guilded.gg/chat/" ++ m.channelId ++ "?messageId=" ++ m.id
  else ""

/-- `get author()` (`Message.ts` lines 135–137):
`this.client.users.cache.get(this.createdById) ?? null`. The client is an
explicit argument here (the source reaches it through `this.client`). -/
def Message.author (c : Client) (m : Message) : Option User :=
  c.users.get m.createdById

/-- `get member()` (`Message.ts` lines 149–155): `this.serverId ?
this.client.members.cache.get(buildMemberKey(this.serverId, this.authorId))
?? null : null` — the guard is JS truthiness of `serverId`, and the user
component of the key is `authorId`, not `createdById`. -/
def Message.member (c : Client) (m : Message) : Option Member :=
  if strTruthy m.serverId then
    c.members.get (buildMemberKey ((m.serverId).getD "") (m.authorId))
  else none

/-- `get channel()` (`Message.ts` lines 160–162):
`this.client.channels.cache.get(this.channelId) ?? null`. -/
def Message.channel (c : Client) (m : Message) : Option Channel :=
  c.channels.get m.channelId

/-- `get server()` (`Message.ts` lines 164–168): `this.serverId ?
this.client.servers.cache.get(this.serverId) ?? null : null`. -/
def Message.server (c : Client) (m : Message) : Option Server :=
  if strTruthy m.serverId then c.servers.get ((m.serverId).getD "") else none

/-- Placeholder for the external `MessageContent` input type (`lib/typings`),
carried opaquely to the transport. -/
structure MessageContent where
  raw : String
deriving DecidableEq, Repr

/-- The outbound request `edit` delegates to the excluded transport layer:
`this.client.messages.update(this.channelId, this.id, newContent)`. -/
structure EditRequest where
  channelId : String
  messageId : String
  newContent : MessageContent
deriving DecidableEq, Repr

/-- `Message.prototype.edit` (`Message.ts` lines 175–179):
`return this.client.messages.update(this.channelId, this.id, newContent)
.then(() => this)`. The transport call is excluded, so the embedding returns
the request it issues together with the value the promise resolves to; the
local message state is not an output because the method never assigns to it,
which is expressed by the resolved value being the untouched `m`. -/
def Message.edit (m : Message) (newContent : MessageContent) :
    EditRequest × Message :=
  ({ channelId := m.channelId, messageId := m.id, newContent := newContent }, m)

/-! ### Field-by-field characterization of `_update`

One lemma per mutable field and one for the readonly fields, each proved by
exhausting the five independent key cases. -/

theorem update_content_eq (dp : String → Int) (m : Message)
    (data : UpdatePayload) :
    (Message._update dp m data).content =
      match data.content with
      | JsProp.val c => c
      | _ => m.content := by
  unfold Message._update
  cases data.content <;> cases data.mentions <;> cases data.updatedAt <;>
    cases data.deletedAt <;> cases data.embeds <;> rfl

theorem update_mentions_eq (dp : String → Int) (m : Message)
    (data : UpdatePayload) :
    (Message._update dp m data).mentions =
      match data.mentions with
      | JsProp.absent => m.mentions
      | JsProp.undef => none
      | JsProp.val x => some x := by
  unfold Message._update
  cases data.content <;> cases data.mentions <;> cases data.updatedAt <;>
    cases data.deletedAt <;> cases data.embeds <;> rfl

theorem update_updatedAt_eq (dp : String → Int) (m : Message)
    (data : UpdatePayload) :
    (Message._update dp m data)._updatedAt =
      match data.updatedAt with
      | JsProp.absent => m._updatedAt
      | JsProp.undef => none
      | JsProp.val s => if s = "" then none else some (dp s) := by
  unfold Message._update
  cases data.content <;> cases data.mentions <;> cases data.updatedAt <;>
    cases data.deletedAt <;> cases data.embeds <;> rfl

theorem update_deleted_eq (dp : String → Int) (m : Message)
    (data : UpdatePayload) :
    (Message._update dp m data).deleted =
      match data.deletedAt with
      | none => m.deleted
      | some _ => true := by
  unfold Message._update
  cases data.content <;> cases data.mentions <;> cases data.updatedAt <;>
    cases data.deletedAt <;> cases data.embeds <;> rfl

theorem update_deletedAt_eq (dp : String → Int) (m : Message)
    (data : UpdatePayload) :
    (Message._update dp m data)._deletedAt =
      match data.deletedAt with
      | none => m._deletedAt
      | some s => some (dp s) := by
  unfold Message._update
  cases data.content <;> cases data.mentions <;> cases data.updatedAt <;>
    cases data.deletedAt <;> cases data.embeds <;> rfl

theorem update_embeds_eq (dp : String → Int) (m : Message)
    (data : UpdatePayload) :
    (Message._update dp m data).embeds =
      match data.embeds with
      | JsProp.absent => m.embeds
      | JsProp.undef => []
      | JsProp.val l => l.map Embed.ofPayload := by
  unfold Message._update
  cases data.content <;> cases data.mentions <;> cases data.updatedAt <;>
    cases data.deletedAt <;> cases data.embeds <;> rfl

/-- `_update` never touches the readonly fields: the identity and every
field the source declares `readonly`. -/
theorem update_readonly_eq (dp : String → Int) (m : Message)
    (data : UpdatePayload) :
    (Message._update dp m data).id = m.id ∧
    (Message._update dp m data).channelId = m.channelId ∧
    (Message._update dp m data).serverId = m.serverId ∧
    (Message._update dp m data).groupId = m.groupId ∧
    (Message._update dp m data).type = m.type ∧
    (Message._update dp m data).replyMessageIds = m.replyMessageIds ∧
    (Message._update dp m data).isPrivate = m.isPrivate ∧
    (Message._update dp m data).isSilent = m.isSilent ∧
    (Message._update dp m data).createdById = m.createdById ∧
    (Message._update dp m data).isReply = m.isReply ∧
    (Message._update dp m data).createdByWebhookId = m.createdByWebhookId ∧
    (Message._update dp m data)._createdAt = m._createdAt := by
  unfold Message._update
  cases data.content <;> cases data.mentions <;> cases data.updatedAt <;>
    cases data.deletedAt <;> cases data.embeds <;>
    exact ⟨rfl, rfl, rfl, rfl, rfl, rfl, rfl, rfl, rfl, rfl, rfl, rfl⟩

/-! ### Concrete sample data for witnesses and counterexamples -/

/-- A stand-in for the external `Date.parse` used in concrete witnesses:
it parses the ISO timestamps appearing in them the way `Date.parse` does
(milliseconds since the epoch) and is `0` elsewhere. -/
def dpEx : String → Int := fun s =>
  if s = "1970-01-01T00:00:01.000Z" then 1000
  else if s = "1970-01-01T00:00:02.000Z" then 2000
  else 0

/-- A concrete sample message. -/
def baseMsg : Message :=
  { id := "M1"
    channelId := "C1"
    serverId := some "S1"
    groupId := none
    type := MessageType.Default
    content := "hello"
    mentions := none
    replyMessageIds := []
    isPrivate := false
    isSilent := false
    createdById := "U1"
    isReply := false
    createdByWebhookId := none
    _createdAt := 0
    _updatedAt := none
    deleted := false
    _deletedAt := none
    embeds := [] }

/-- `baseMsg` as created through a webhook. -/
def webhookMsg : Message := { baseMsg with createdByWebhookId := some "W1" }

/-- `baseMsg` with a present-but-empty `serverId` (non-null, falsy in JS). -/
def emptyServerMsg : Message := { baseMsg with serverId := some "" }

/-- A deletion payload. -/
def pDel1 : UpdatePayload :=
  { UpdatePayload.empty with deletedAt := some "1970-01-01T00:00:01.000Z" }

/-- A second, later deletion payload. -/
def pDel2 : UpdatePayload :=
  { UpdatePayload.empty with deletedAt := some "1970-01-01T00:00:02.000Z" }

/-- A payload setting `content` to the explicit empty string. -/
def pContentEmpty : UpdatePayload :=
  { UpdatePayload.empty with content := JsProp.val "" }

/-- A payload carrying a truthy `updatedAt`. -/
def pUpd : UpdatePayload :=
  { UpdatePayload.empty with updatedAt := JsProp.val "1970-01-01T00:00:02.000Z" }

/-! ### Claims about `_update` -/

/-- Claim C1: `_update` replaces `content` exactly when the `content` key is
present with a non-`undefined` value (an explicit empty string included);
an absent key, or a present key whose value is `undefined`, leaves `content`
unchanged — presence of the key, not truthiness of the value, is the test. -/
theorem content_update_semantics (dp : String → Int) (m : Message)
    (p : UpdatePayload) :
    (∀ c : String, p.content = JsProp.val c →
      (Message._update dp m p).content = c) ∧
    (p.content = JsProp.absent ∨ p.content = JsProp.undef →
      (Message._update dp m p).content = m.content) := by
  constructor
  · intro c hc
    rw [update_content_eq, hc]
  · rintro (hc | hc) <;> rw [update_content_eq, hc]

/-- Witness for C1: an explicit empty string sets `content` to `""` even
though the prior content was `"hello"`. -/
theorem content_update_semantics_witness :
    (Message._update dpEx baseMsg pContentEmpty).content = "" :=
  (content_update_semantics dpEx baseMsg pContentEmpty).1 "" rfl

/-- `deleted` never goes back from `true` under a single update. -/
theorem update_deleted_mono (dp : String → Int) (m : Message)
    (p : UpdatePayload) (h : m.deleted = true) :
    (Message._update dp m p).deleted = true := by
  rw [update_deleted_eq]
  cases p.deletedAt <;> simp [h]

/-- `deleted` never goes back from `true` under a sequence of updates. -/
theorem updateAll_deleted_mono (dp : String → Int) (ps : List UpdatePayload) :
    ∀ m : Message, m.deleted = true →
      (Message.updateAll dp ps m).deleted = true := by
  induction ps with
  | nil => intro m h; exact h
  | cons p ps ih =>
      intro m h
      exact ih _ (update_deleted_mono dp m p h)

/-- Claim C2: the `deleted` flag is a one-way latch: an update whose payload
carries the `deletedAt` key makes `deleted` true; it stays true under every
subsequent sequence of updates (in particular those lacking `deletedAt`);
and no update ever turns `deleted` from true back to false. -/
theorem deleted_latch (dp : String → Int) (m : Message) (p : UpdatePayload)
    (s : String) (h : p.deletedAt = some s) (ps : List UpdatePayload) :
    (Message.updateAll dp ps (Message._update dp m p)).deleted = true ∧
    (∀ (m2 : Message) (p2 : UpdatePayload), m2.deleted = true →
      (Message._update dp m2 p2).deleted = true) := by
  constructor
  · apply updateAll_deleted_mono
    rw [update_deleted_eq, h]
  · exact fun m2 p2 h2 => update_deleted_mono dp m2 p2 h2

/-- Witness for C2: a concrete deletion followed by a no-key update leaves
`deleted` true. -/
theorem deleted_latch_witness :
    (Message.updateAll dpEx [UpdatePayload.empty]
      (Message._update dpEx baseMsg pDel1)).deleted = true :=
  (deleted_latch dpEx baseMsg pDel1 "1970-01-01T00:00:01.000Z" rfl
    [UpdatePayload.empty]).1

/-- Counterexample to Claim C3 as stated: after the first `deletedAt` update
recorded a timestamp, a later update that again carries `deletedAt` (with a
different value) changes the recorded timestamp. -/
theorem deletedAt_set_once_cex :
    (Message._update dpEx baseMsg pDel1)._deletedAt ≠ none ∧
    (Message._update dpEx (Message._update dpEx baseMsg pDel1)
        pDel2)._deletedAt ≠
      (Message._update dpEx baseMsg pDel1)._deletedAt :=
  ⟨by decide, by decide⟩

/-- Claim C3 amended: updates lacking the `deletedAt` key never change the
recorded deletion timestamp, but every update that carries `deletedAt`
(re-)sets `_deletedAt` to the newly parsed value, so a repeated deletion
event overwrites the first timestamp rather than preserving it. -/
theorem deletedAt_update_semantics (dp : String → Int) (m : Message)
    (p : UpdatePayload) :
    (p.deletedAt = none →
      (Message._update dp m p)._deletedAt = m._deletedAt) ∧
    (∀ s : String, p.deletedAt = some s →
      (Message._update dp m p)._deletedAt = some (dp s)) := by
  constructor
  · intro h; rw [update_deletedAt_eq, h]
  · intro s h; rw [update_deletedAt_eq, h]

/-- Witness for the amended C3: a no-key update after a deletion preserves
the recorded timestamp. -/
theorem deletedAt_update_semantics_witness :
    (Message._update dpEx (Message._update dpEx baseMsg pDel1)
        UpdatePayload.empty)._deletedAt =
      (Message._update dpEx baseMsg pDel1)._deletedAt :=
  (deletedAt_update_semantics dpEx (Message._update dpEx baseMsg pDel1)
    UpdatePayload.empty).1 rfl

/-- Claim C4: when the `updatedAt` key is present, `_updatedAt` becomes the
parsed timestamp for a truthy value and null for a falsy one (`undefined`
or the empty string); when the key is absent, `_updatedAt` is unchanged. -/
theorem updatedAt_update_semantics (dp : String → Int) (m : Message)
    (p : UpdatePayload) :
    (∀ s : String, p.updatedAt = JsProp.val s → s ≠ "" →
      (Message._update dp m p)._updatedAt = some (dp s)) ∧
    (p.updatedAt = JsProp.val "" ∨ p.updatedAt = JsProp.undef →
      (Message._update dp m p)._updatedAt = none) ∧
    (p.updatedAt = JsProp.absent →
      (Message._update dp m p)._updatedAt = m._updatedAt) := by
  refine ⟨?_, ?_, ?_⟩
  · intro s h hs
    rw [update_updatedAt_eq, h]
    simp [hs]
  · rintro (h | h)
    · rw [update_updatedAt_eq, h]; simp
    · rw [update_updatedAt_eq, h]
  · intro h; rw [update_updatedAt_eq, h]

/-- Witness for C4: a truthy `updatedAt` stores its parsed timestamp. -/
theorem updatedAt_update_semantics_witness :
    (Message._update dpEx baseMsg pUpd)._updatedAt = some 2000 :=
  ((updatedAt_update_semantics dpEx baseMsg pUpd).1
    "1970-01-01T00:00:02.000Z" rfl (by decide)).trans (by decide)

/-- Claim C5: an update payload with none of the recognized keys present is
a no-op on every field of the message, and for every payload `_update`
returns the same entity — in this embedding, the in-place-mutated message
whose identity field is preserved. -/
theorem update_noop_and_returns_self (dp : String → Int) (m : Message)
    (p : UpdatePayload)
    (h1 : p.content = JsProp.absent) (h2 : p.mentions = JsProp.absent)
    (h3 : p.updatedAt = JsProp.absent) (h4 : p.deletedAt = none)
    (h5 : p.embeds = JsProp.absent) :
    Message._update dp m p = m ∧
    (∀ q : UpdatePayload, (Message._update dp m q).id = m.id) := by
  constructor
  · obtain ⟨c1, c2, c3, c4, c5⟩ := p
    cases h1; cases h2; cases h3; cases h4; cases h5
    rfl
  · intro q; exact (update_readonly_eq dp m q).1

/-- Witness for C5: the all-absent payload leaves the sample message
exactly as it was. -/
theorem update_noop_and_returns_self_witness :
    Message._update dpEx baseMsg UpdatePayload.empty = baseMsg :=
  (update_noop_and_returns_self dpEx baseMsg UpdatePayload.empty
    rfl rfl rfl rfl rfl).1

/-! ### Claims about the derived accessors -/

/-- Claim C6: `authorId` is the webhook id when `createdByWebhookId` is
non-null, otherwise the creator id. -/
theorem authorId_precedence (m : Message) :
    (∀ w : String, m.createdByWebhookId = some w → Message.authorId m = w) ∧
    (m.createdByWebhookId = none →
      Message.authorId m = m.createdById) := by
  constructor
  · intro w h; unfold Message.authorId; rw [h]
  · intro h; unfold Message.authorId; rw [h]

/-- Witness for C6: with `createdById = "U1"` and
`createdByWebhookId = some "W1"`, `authorId` is `"W1"`. -/
theorem authorId_precedence_witness :
    Message.authorId webhookMsg = "W1" :=
  (authorId_precedence webhookMsg).1 "W1" rfl

/-- `sub` occurs as a contiguous substring of `s`. -/
def strContains (s sub : String) : Prop :=
  ∃ p q : String, s = p ++ sub ++ q

/-- Counterexample to Claim C7 as stated: a `serverId` that is present but
equal to the empty string is not null, yet the source's guard
`if (!this.serverId)` tests JS truthiness, so `url` is `""` and does not
contain the channel id. -/
theorem url_claim_cex :
    emptyServerMsg.serverId ≠ none ∧
    ¬ strContains (Message.url emptyServerMsg) emptyServerMsg.channelId := by
  constructor
  · decide
  · rintro ⟨p, q, hpq⟩
    have h := congrArg String.length hpq
    rw [String.length_append, String.length_append] at h
    have h0 : (Message.url emptyServerMsg).length = 0 := rfl
    have h2 : (emptyServerMsg.channelId).length = 2 := rfl
    rw [h0, h2] at h
    omega

/-- Claim C7 amended: `url` is `""` whenever `serverId` is falsy — null, as
claimed, but also the empty string — and for every truthy `serverId` it is
a URL containing both the channel id and the message id. -/
theorem url_semantics (m : Message) :
    (strTruthy m.serverId = false → Message.url m = "") ∧
    (strTruthy m.serverId = true →
      strContains (Message.url m) m.channelId ∧
      strContains (Message.url m) m.id) := by
  constructor
  · intro h; simp [Message.url, h]
  · intro h
    constructor
    · refine ⟨"https://www.guilded.gg/chat/", "?messageId=" ++ m.id, ?_⟩
      simp [Message.url, h, String.append_assoc]
    · refine ⟨"https://www.guilded.gg/chat/" ++ m.channelId ++ "?messageId=",
        "", ?_⟩
      simp [Message.url, h, String.append_assoc]

/-- Witness for the amended C7: the sample message with `serverId = "S1"`,
`channelId = "C1"`, `id = "M1"` has a url containing `"C1"`. -/
theorem url_semantics_witness :
    strContains (Message.url baseMsg) "C1" :=
  ((url_semantics baseMsg).2 rfl).1

/-- The members cache of the C8 counterexample holds an entry under the
key derived from the degenerate empty `serverId`. -/
def cexMember : Member := { serverId := "", userId := "U1" }

/-- Client for the C8 counterexample. -/
def cexClient : Client :=
  { users := ⟨[]⟩
    members := ⟨[(buildMemberKey "" "U1", cexMember)]⟩
    channels := ⟨[]⟩
    servers := ⟨[]⟩ }

/-- Counterexample to Claim C8 as stated: with `serverId` present but equal
to the empty string, the members cache holds an entry under the derived key
`buildMemberKey(serverId, authorId)`, yet `member` returns `none` rather
than the cached instance — the source guards on JS truthiness of
`serverId`, not only on null. -/
theorem accessor_claim_cex :
    Cache.get cexClient.members
      (buildMemberKey "" (Message.authorId emptyServerMsg)) = some cexMember ∧
    Message.member cexClient emptyServerMsg = none :=
  ⟨by decide, by decide⟩

/-- Claim C8 amended: each relationship accessor is a pure, synchronous
cache lookup — `none` exactly on a cache miss and the stored entry itself on
a hit — except that `member` and `server` short-circuit to `none` whenever
`serverId` is falsy (null, as claimed, and also the empty string), even if
the cache holds an entry under the derived key. The embedding is pure: the
accessors read the client and message and return only the lookup result, so
no mutation, network call or implicit fetch can occur. -/
theorem accessor_lookup_semantics (c : Client) (m : Message) :
    (Cache.get c.users m.createdById = none → Message.author c m = none) ∧
    (∀ u : User, Cache.get c.users m.createdById = some u →
      Message.author c m = some u) ∧
    (Cache.get c.channels m.channelId = none → Message.channel c m = none) ∧
    (∀ ch : Channel, Cache.get c.channels m.channelId = some ch →
      Message.channel c m = some ch) ∧
    (∀ s : String, m.serverId = some s → s ≠ "" →
      Message.member c m =
        Cache.get c.members (buildMemberKey s (Message.authorId m)) ∧
      Message.server c m = Cache.get c.servers s) ∧
    (strTruthy m.serverId = false →
      Message.member c m = none ∧ Message.server c m = none) := by
  refine ⟨?_, ?_, ?_, ?_, ?_, ?_⟩
  · intro h; rw [Message.author, h]
  · intro u h; rw [Message.author, h]
  · intro h; rw [Message.channel, h]
  · intro ch h; rw [Message.channel, h]
  · intro s h hs
    constructor
    · simp [Message.member, strTruthy, h, hs]
    · simp [Message.server, strTruthy, h, hs]
  · intro h
    constructor
    · simp [Message.member, h]
    · simp [Message.server, h]

/-- Witness for the amended C8: on the sample message, a null `serverId`
makes `member` and `server` null. -/
theorem accessor_lookup_semantics_witness :
    Message.member cexClient { baseMsg with serverId := none } = none ∧
    Message.server cexClient { baseMsg with serverId := none } = none :=
  (accessor_lookup_semantics cexClient
    { baseMsg with serverId := none }).2.2.2.2.2 rfl

/-- Claim C9: `edit` mutates no local field — the resolved entity is the
untouched message itself, its content included — and the request delegated
to the transport targets this message's channel and id with the new
content. -/
theorem edit_no_local_mutation (m : Message) (nc : MessageContent) :
    (Message.edit m nc).2 = m ∧
    (Message.edit m nc).2.content = m.content ∧
    (Message.edit m nc).1 =
      { channelId := m.channelId, messageId := m.id, newContent := nc } :=
  ⟨rfl, rfl, rfl⟩

/-- Claim C10: with a truthy `serverId`, the member lookup key is built from
`(serverId, authorId)`; for a webhook-created message the user component is
therefore the webhook id, not the placeholder `createdById`. -/
theorem member_key_from_authorId (c : Client) (m : Message) (s w : String)
    (h1 : m.serverId = some s) (h2 : s ≠ "")
    (h3 : m.createdByWebhookId = some w) :
    Message.member c m = Cache.get c.members (buildMemberKey s w) := by
  simp [Message.member, Message.authorId, strTruthy, h1, h2, h3]

/-- Client for the C10 witness: the members cache holds entries both under
the placeholder creator key and under the webhook key. -/
def webhookClient : Client :=
  { users := ⟨[]⟩
    members := ⟨[(buildMemberKey "S1" "U1", { serverId := "S1", userId := "U1" }),
                 (buildMemberKey "S1" "W1", { serverId := "S1", userId := "W1" })]⟩
    channels := ⟨[]⟩
    servers := ⟨[]⟩ }

/-- Witness for C10: on the webhook-created sample message the lookup finds
the member cached under the webhook key, not the one under the creator
key. -/
theorem member_key_from_authorId_witness :
    Message.member webhookClient webhookMsg =
      some { serverId := "S1", userId := "W1" } :=
  (member_key_from_authorId webhookClient webhookMsg "S1" "W1"
    rfl (by decide) rfl).trans (by decide)
